import Mathlib

/-!
Verification of the xendbg Virtual Machine Introspection & Control Engine.

Shallow embedding of the core operations of `src/Xen/Domain.cpp`,
`src/Xen/DomainHVM.cpp` and `src/Xen/HVMMonitor.cpp`:

* the software page-table walker `Domain::get_page_table_entry`,
* the idempotent per-vCPU pause tracker `Domain::pause_unpause_vcpu`,
* the HVM register-context conversions `DomainHVM::convert_regs_from_hvm`
  and `DomainHVM::convert_regs_to_hvm` plus `set_cpu_context`,
* the VM-event drain-and-dispatch loop `HVMMonitor::read_events`.

Machine integers are modelled as `Nat` with explicit `% 2^64` where the
C++ `uint64_t` arithmetic can wrap.  Fallible external calls (guest memory
mapping, hypercalls) are modelled as explicit `Option`/outcome values.
-/

namespace XdXen

/-! ## Constants from Domain.cpp and the Xen public headers -/

def CR0_PG : Nat := 0x80000000

def CR4_PAE : Nat := 0x2

def PTE_PSE : Nat := 0x80

def EFER_LMA : Nat := 0x400

def XC_PAGE_SHIFT : Nat := 12

def XC_PAGE_SIZE : Nat := 4096

/-! ## Bit-scan helpers (ffs), ported from xc_private.c as copied into
Domain.cpp.  `xc_ffs8 x` returns one plus the index of the least
significant set bit of the low byte of `x`, or `0` if none. -/

def xc_ffs8 (x : Nat) : Nat :=
  match (List.range 8).find? (fun i => (x % 2 ^ 8) &&& (1 <<< i) != 0) with
  | some i => i + 1
  | none => 0

def xc_ffs16 (x : Nat) : Nat :=
  let h := (x % 2 ^ 16) >>> 8
  let l := (x % 2 ^ 16) % 2 ^ 8
  if l ≠ 0 then xc_ffs8 l else if h ≠ 0 then xc_ffs8 h + 8 else 0

def xc_ffs32 (x : Nat) : Nat :=
  let h := (x % 2 ^ 32) >>> 16
  let l := (x % 2 ^ 32) % 2 ^ 16
  if l ≠ 0 then xc_ffs16 l else if h ≠ 0 then xc_ffs16 h + 16 else 0

def xc_ffs64 (x : Nat) : Nat :=
  let h := (x % 2 ^ 64) >>> 32
  let l := (x % 2 ^ 64) % 2 ^ 32
  if l ≠ 0 then xc_ffs32 l else if h ≠ 0 then xc_ffs32 h + 32 else 0

/-- Bitwise 64-bit complement `~x` of a `uint64_t` value. -/
def comp64 (x : Nat) : Nat := 0xffffffffffffffff ^^^ (x % 2 ^ 64)

/-- Negation `-x` of a `uint64_t` value in 64-bit two-complement arithmetic. -/
def neg64 (x : Nat) : Nat := (2 ^ 64 - x % 2 ^ 64) % 2 ^ 64

/-- The large-page offset mask `(mask ^ ~-mask) >> 1` from
`Domain::get_page_table_entry` ("All bits below first set bit"). -/
def pse_offset_mask (mask : Nat) : Nat := (mask ^^^ comp64 (neg64 mask)) >>> 1

/-! ## The page-table walker, `Domain::get_page_table_entry` -/

/-- Result of a translation: the present bit of a fetched entry was clear
(`std::nullopt` in the source), the read-only mapping of an intermediate
table page failed (`map_memory` throws, surfacing as a translation fault),
or a resolved frame value. -/
inductive WalkResult where
  | notPresent
  | translationFault
  | frame (pfn : Nat)
deriving DecidableEq, Repr

/-- The `for (level = pt_levels; level > 0; level--)` loop of
`Domain::get_page_table_entry`.

`mem a` is the 8-byte little-endian guest-physical memory content at byte
address `a`, or `none` when mapping the page containing `a` fails.

`pte` threads the C++ local variable `uint64_t pte`, which is declared
uninitialized: each iteration `memcpy`s only `size` bytes into its low end,
so when `size = 4` (2-level mode) the high 32 bits keep their previous
(initially indeterminate) content.  The initial content is the `pte`
argument supplied by the caller.

Returns the walk result together with the list of successive values
of `pte` after each fetch (the fetched entries), so that theorems can
speak about which entries the walk read. -/
def walkLoop (mem : Nat → Option Nat) (pt_levels size vaddr : Nat) :
    Nat → Nat → Nat → Nat → List Nat → WalkResult × List Nat
  | 0, _, _, pte, trace => (.frame pte, trace)
  | level + 1, paddr, mask, pte, trace =>
    let entry_addr := (paddr + ((vaddr &&& mask) >>> (xc_ffs64 mask - 1)) * size) % 2 ^ 64
    match mem entry_addr with
    | none => (.translationFault, trace)
    | some bytes =>
      let pte := ((pte >>> (8 * size)) <<< (8 * size)) ||| (bytes % 2 ^ (8 * size))
      let trace := trace ++ [pte]
      if pte % 2 = 0 then (.notPresent, trace)
      else
        let base := pte &&& 0x000ffffffffff000
        if (level + 1 = 2 ∨ (level + 1 = 3 ∧ pt_levels = 4)) ∧ pte &&& PTE_PSE ≠ 0 then
          let off := pse_offset_mask mask
          (.frame (((base &&& comp64 off) ||| (vaddr &&& off)) >>> XC_PAGE_SHIFT), trace)
        else
          walkLoop mem pt_levels size vaddr level base
            (mask >>> (if pt_levels = 2 then 10 else 9)) pte trace

/-- Truncation of the virtual address, initial index mask and entry size
per level count, then the walk itself (the part of
`Domain::get_page_table_entry` after `pt_levels`/`paddr` are chosen).
`pte0` is the initial (indeterminate) content of the `pte` variable. -/
def walkTables (mem : Nat → Option Nat) (pt_levels paddr pte0 vaddr : Nat) :
    WalkResult × List Nat :=
  let vaddr := if pt_levels = 4 then vaddr &&& 0x0000ffffffffffff
               else vaddr &&& 0x00000000ffffffff
  let mask : Nat := if pt_levels = 4 then 0x0000ff8000000000
                    else if pt_levels = 3 then 0x0000007fc0000000
                    else 0x00000000ffc00000
  let size : Nat := if pt_levels = 2 then 4 else 8
  walkLoop mem pt_levels size vaddr pt_levels paddr mask pte0 []

/-- Model of `Domain::get_page_table_entry`, with the control-register values
`cr0`, `cr3`, `cr4`, `msr_efer` already extracted from the vCPU context
(`std::visit` over `get_cpu_context`), the `hvm` flag of the domain from
`get_dominfo()`, and `word_size` from `get_word_size()`. -/
def get_page_table_entry (hvm : Bool) (word_size cr0 cr3 cr4 msr_efer : Nat)
    (mem : Nat → Option Nat) (pte0 vaddr : Nat) : WalkResult × List Nat :=
  if hvm then
    if cr0 &&& CR0_PG = 0 then
      (.frame (vaddr >>> XC_PAGE_SHIFT), [])
    else
      let pt_levels : Nat :=
        if msr_efer &&& EFER_LMA ≠ 0 then 4
        else if cr4 &&& CR4_PAE ≠ 0 then 3 else 2
      let paddr := cr3 &&& (if pt_levels = 3 then comp64 0x1f else comp64 0xfff)
      walkTables mem pt_levels paddr pte0 vaddr
  else
    if word_size = 8 then
      walkTables mem 4 (cr3 % 2 ^ 64) pte0 vaddr
    else
      walkTables mem 3
        ((((cr3 >>> XC_PAGE_SHIFT) ||| ((cr3 <<< 20) % 2 ^ 64)) <<< XC_PAGE_SHIFT) % 2 ^ 64)
        pte0 vaddr

/-! ## The per-vCPU pause tracker, `Domain::pause_unpause_vcpu` -/

/-- Constant `XEN_DOMCTL_gdbsx_pausevcpu` from the Xen public domctl header. -/
def XEN_DOMCTL_gdbsx_pausevcpu : Nat := 1001

/-- Constant `XEN_DOMCTL_gdbsx_unpausevcpu` from the Xen public domctl header. -/
def XEN_DOMCTL_gdbsx_unpausevcpu : Nat := 1002

/-- Outcome of one `Domain::pause_unpause_vcpu` invocation.

`state` is the `_vcpu_pause_state` vector after the call and `calls` the
list of `(hypercall, vcpu)` pairs handed to `hypercall_domctl` (at most
one).  `hypercallFailed` is the outcome when `hypercall_domctl` throws:
the exception propagates, but the tracker bit was already flipped.
`oobAccess` marks the undefined behaviour of indexing
`_vcpu_pause_state[vcpu_id]` past the end of the vector (the source
performs no range check); `unknownDomctl` is the
`throw std::runtime_error("Unknown domctl!")` branch. -/
inductive PUOutcome where
  | ok (state : List Bool) (calls : List (Nat × Nat))
  | hypercallFailed (state : List Bool) (calls : List (Nat × Nat))
  | oobAccess
  | unknownDomctl
deriving DecidableEq, Repr

/-- The tracker state after an invocation (meaningless for the
`oobAccess`/`unknownDomctl` outcomes, where it is `[]`). -/
def PUOutcome.stateOf : PUOutcome → List Bool
  | .ok s _ => s
  | .hypercallFailed s _ => s
  | _ => []

/-- The hypercalls issued by an invocation. -/
def PUOutcome.callsOf : PUOutcome → List (Nat × Nat)
  | .ok _ c => c
  | .hypercallFailed _ c => c
  | _ => []

/-- Model of `Domain::pause_unpause_vcpu(hypercall, vcpu_id)`.

`chanOk hypercall vcpu` tells whether the delegated
`hypercall_domctl(hypercall, ...)` call succeeds; `st` is the
`_vcpu_pause_state` vector (length `max_vcpu_id + 1`, fixed at
construction).  The tracked bit is flipped before the hypercall is
issued, exactly as in the source. -/
def pause_unpause_vcpu (chanOk : Nat → Nat → Bool) (hypercall vcpu_id : Nat)
    (st : List Bool) : PUOutcome :=
  if hypercall = XEN_DOMCTL_gdbsx_pausevcpu then
    match st[vcpu_id]? with
    | none => .oobAccess
    | some true => .ok st []
    | some false =>
      let st2 := st.set vcpu_id true
      if chanOk hypercall vcpu_id then .ok st2 [(hypercall, vcpu_id)]
      else .hypercallFailed st2 [(hypercall, vcpu_id)]
  else if hypercall = XEN_DOMCTL_gdbsx_unpausevcpu then
    match st[vcpu_id]? with
    | none => .oobAccess
    | some true =>
      let st2 := st.set vcpu_id false
      if chanOk hypercall vcpu_id then .ok st2 [(hypercall, vcpu_id)]
      else .hypercallFailed st2 [(hypercall, vcpu_id)]
    | some false => .ok st []
  else .unknownDomctl

/-- Model of `Domain::pause_vcpu`. -/
def pause_vcpu (chanOk : Nat → Nat → Bool) (vcpu_id : Nat) (st : List Bool) : PUOutcome :=
  pause_unpause_vcpu chanOk XEN_DOMCTL_gdbsx_pausevcpu vcpu_id st

/-- Model of `Domain::unpause_vcpu`. -/
def unpause_vcpu (chanOk : Nat → Nat → Bool) (vcpu_id : Nat) (st : List Bool) : PUOutcome :=
  pause_unpause_vcpu chanOk XEN_DOMCTL_gdbsx_unpausevcpu vcpu_id st

/-! ## HVM register contexts, `DomainHVM.cpp` -/

/-- The raw `struct hvm_hw_cpu` hardware-virtualization save record, per
the Xen public save-format header included by the source.  All fields
modelled as `Nat`. -/
structure hvm_hw_cpu where
  rax : Nat
  rbx : Nat
  rcx : Nat
  rdx : Nat
  rbp : Nat
  rsi : Nat
  rdi : Nat
  rsp : Nat
  r8 : Nat
  r9 : Nat
  r10 : Nat
  r11 : Nat
  r12 : Nat
  r13 : Nat
  r14 : Nat
  r15 : Nat
  rip : Nat
  rflags : Nat
  cr0 : Nat
  cr2 : Nat
  cr3 : Nat
  cr4 : Nat
  dr0 : Nat
  dr1 : Nat
  dr2 : Nat
  dr3 : Nat
  dr6 : Nat
  dr7 : Nat
  cs_sel : Nat
  ds_sel : Nat
  es_sel : Nat
  fs_sel : Nat
  gs_sel : Nat
  ss_sel : Nat
  tr_sel : Nat
  ldtr_sel : Nat
  cs_limit : Nat
  ds_limit : Nat
  es_limit : Nat
  fs_limit : Nat
  gs_limit : Nat
  ss_limit : Nat
  tr_limit : Nat
  ldtr_limit : Nat
  idtr_limit : Nat
  gdtr_limit : Nat
  cs_base : Nat
  ds_base : Nat
  es_base : Nat
  fs_base : Nat
  gs_base : Nat
  ss_base : Nat
  tr_base : Nat
  ldtr_base : Nat
  idtr_base : Nat
  gdtr_base : Nat
  cs_arbytes : Nat
  ds_arbytes : Nat
  es_arbytes : Nat
  fs_arbytes : Nat
  gs_arbytes : Nat
  ss_arbytes : Nat
  tr_arbytes : Nat
  ldtr_arbytes : Nat
  sysenter_cs : Nat
  sysenter_esp : Nat
  sysenter_eip : Nat
  shadow_gs : Nat
  msr_flags : Nat
  msr_lstar : Nat
  msr_star : Nat
  msr_cstar : Nat
  msr_syscall_mask : Nat
  msr_efer : Nat
  msr_tsc_aux : Nat
  tsc : Nat
  pending_event : Nat
  error_code : Nat
deriving DecidableEq, Repr

/-- The 64-bit canonical register context `xd::reg::x86_64::RegistersX86_64`,
restricted to the registers the HVM conversions touch.  The segment
registers hold base addresses (`GET_HVM2(regs, hvm, fs, fs_base)` etc.). -/
structure RegistersX86_64 where
  rax : Nat
  rbx : Nat
  rcx : Nat
  rdx : Nat
  rsp : Nat
  rbp : Nat
  rsi : Nat
  rdi : Nat
  r8 : Nat
  r9 : Nat
  r10 : Nat
  r11 : Nat
  r12 : Nat
  r13 : Nat
  r14 : Nat
  r15 : Nat
  rip : Nat
  rflags : Nat
  fs : Nat
  gs : Nat
  cs : Nat
  ds : Nat
  ss : Nat
  cr3 : Nat
deriving DecidableEq, Repr

/-- The 32-bit canonical register context `xd::reg::x86_32::RegistersX86_32`
(the other variant of the tagged union; its fields are never consumed by
the HVM paths). -/
structure RegistersX86_32 where
  eax : Nat
  ebx : Nat
  ecx : Nat
  edx : Nat
  esi : Nat
  edi : Nat
  ebp : Nat
  esp : Nat
  eip : Nat
  eflags : Nat
deriving DecidableEq, Repr

/-- The tagged union `xd::reg::RegistersX86Any` (a `std::variant` over the
32-bit and 64-bit layouts). -/
def RegistersX86Any := RegistersX86_32 ⊕ RegistersX86_64

/-- Model of `DomainHVM::convert_regs_from_hvm`: builds a fresh 64-bit context from
the raw record (`GET_HVM`/`GET_HVM2` lines). -/
def convert_regs_from_hvm (hvm : hvm_hw_cpu) : RegistersX86_64 where
  rax := hvm.rax
  rbx := hvm.rbx
  rcx := hvm.rcx
  rdx := hvm.rdx
  rsp := hvm.rsp
  rbp := hvm.rbp
  rsi := hvm.rsi
  rdi := hvm.rdi
  r8 := hvm.r8
  r9 := hvm.r9
  r10 := hvm.r10
  r11 := hvm.r11
  r12 := hvm.r12
  r13 := hvm.r13
  r14 := hvm.r14
  r15 := hvm.r15
  rip := hvm.rip
  rflags := hvm.rflags
  fs := hvm.fs_base
  gs := hvm.gs_base
  cs := hvm.cs_base
  ds := hvm.ds_base
  ss := hvm.ss_base
  cr3 := hvm.cr3

/-- Model of `DomainHVM::convert_regs_to_hvm`: takes the raw record `hvm` by value
and overwrites exactly the fields named by the `SET_HVM`/`SET_HVM2`
lines, returning the result. -/
def convert_regs_to_hvm (regs : RegistersX86_64) (hvm : hvm_hw_cpu) : hvm_hw_cpu :=
  { hvm with
    rax := regs.rax
    rbx := regs.rbx
    rcx := regs.rcx
    rdx := regs.rdx
    rsp := regs.rsp
    rbp := regs.rbp
    rsi := regs.rsi
    rdi := regs.rdi
    r8 := regs.r8
    r9 := regs.r9
    r10 := regs.r10
    r11 := regs.r11
    r12 := regs.r12
    r13 := regs.r13
    r14 := regs.r14
    r15 := regs.r15
    rip := regs.rip
    rflags := regs.rflags
    fs_base := regs.fs
    gs_base := regs.gs
    cs_base := regs.cs
    ds_base := regs.ds
    ss_base := regs.ss
    cr3 := regs.cr3 }

/-- Model of `DomainHVM::get_cpu_context`: reads the raw context over the control
channel (`rawCtx vcpu` models what `get_cpu_context_raw` returns) and
converts it.  Always produces the 64-bit variant. -/
def get_cpu_context (rawCtx : Nat → hvm_hw_cpu) (vcpu_id : Nat) :
    RegistersX86_32 ⊕ RegistersX86_64 :=
  Sum.inr (convert_regs_from_hvm (rawCtx vcpu_id))

/-- Control-channel interactions of `DomainHVM::set_cpu_context`:
`getContext` is an `xc_domain_hvm_getcontext_partial` read. -/
inductive ChanAction where
  | getContext (vcpu : Nat)
deriving DecidableEq, Repr

/-- How `DomainHVM::set_cpu_context` fails: `badVariantAccess` is the
`std::get<RegistersX86_64>` throw on a 32-bit context;
`notImplemented` is the unconditional
`throw std::runtime_error("Not yet implemented!")` of
`set_cpu_context_raw`. -/
inductive SetCtxError where
  | badVariantAccess
  | notImplemented
deriving DecidableEq, Repr

/-- Model of `DomainHVM::set_cpu_context(regs, vcpu_id)`: extracts the 64-bit
variant (throwing on a 32-bit one before touching the control channel),
reads the current raw context, merges the modelled registers into it, has
that merge overwritten by a second `getcontext` read (the source passes
`new_context` as the output buffer of a second
`xc_domain_hvm_getcontext_partial` call), then reaches the unimplemented
raw write-back, which throws.  Returns the error together with the list
of control-channel interactions that occurred. -/
def set_cpu_context (rawCtx : Nat → hvm_hw_cpu)
    (regs : RegistersX86_32 ⊕ RegistersX86_64) (vcpu_id : Nat) :
    SetCtxError × List ChanAction :=
  match regs with
  | .inl _ => (.badVariantAccess, [])
  | .inr regs64 =>
    let old_context := rawCtx vcpu_id
    let new_context := convert_regs_to_hvm regs64 old_context
    let overwritten := rawCtx vcpu_id
    (.notImplemented, [.getContext vcpu_id, .getContext vcpu_id])

/-! ## The VM-event monitor, `HVMMonitor::read_events` -/

/-- Constant `X86_TRAP_INT3` from `asm-x86/processor.h` as copied into
HVMMonitor.cpp. -/
def X86_TRAP_INT3 : Nat := 3

/-- Constant `VM_EVENT_FLAG_VCPU_PAUSED` (bit 0) from the Xen public vm_event
header. -/
def VM_EVENT_FLAG_VCPU_PAUSED : Nat := 1

/-- Reason codes of VM events from the Xen public vm_event header. -/
def VM_EVENT_REASON_MEM_ACCESS : Nat := 1

def VM_EVENT_REASON_SOFTWARE_BREAKPOINT : Nat := 2

def VM_EVENT_REASON_SINGLESTEP : Nat := 3

def VM_EVENT_REASON_DEBUG_EXCEPTION : Nat := 5

def VM_EVENT_REASON_CPUID : Nat := 6

def VM_EVENT_REASON_DESCRIPTOR_ACCESS : Nat := 8

def VM_EVENT_REASON_PRIVILEGED_CALL : Nat := 9

/-- A `vm_event_request_t` as the monitor consumes it: the common header
fields plus the software-breakpoint payload
(`req.u.software_breakpoint.{type, insn_length}`). -/
structure vm_event_request where
  version : Nat
  flags : Nat
  vcpu_id : Nat
  reason : Nat
  sb_type : Nat
  sb_insn_length : Nat
deriving DecidableEq, Repr

/-- A `vm_event_response_t` as the monitor fills it: the record is
zeroed, then exactly these fields are assigned. -/
structure vm_event_response where
  version : Nat
  flags : Nat
  vcpu_id : Nat
  reason : Nat
deriving DecidableEq, Repr

/-- Observable actions of one drain of `HVMMonitor::read_events`:
a `_xendevicemodel.inject_event` call (arguments in source order:
vcpu, vector, type, error-code, instruction length, cr2), an invocation
of the registered `_on_software_breakpoint` callback, or a
`put_response`. -/
inductive MonitorAction where
  | injectEvent (vcpu vector type : Nat) (errorCode : Int) (insnLength cr2 : Nat)
  | callback (req : vm_event_request)
  | response (rsp : vm_event_response)
deriving DecidableEq, Repr

/-- The body of the drain loop of `HVMMonitor::read_events` for one
request.  `ifaceVersion` is `VM_EVENT_INTERFACE_VERSION` (the
supported interface version, fixed by the Xen headers the engine was
built against); `cbRegistered` tells whether `_on_software_breakpoint`
holds a callback.  Mirrors the source exactly: the response is prepared
first; a version mismatch `continue`s — skipping `put_response`; the
`switch` on the reason injects a trap and fires the callback only for
`VM_EVENT_REASON_SOFTWARE_BREAKPOINT`; afterwards the response is
submitted. -/
def handle_request (ifaceVersion : Nat) (cbRegistered : Bool)
    (req : vm_event_request) : List MonitorAction :=
  let rsp : vm_event_response :=
    { version := ifaceVersion
      flags := req.flags &&& VM_EVENT_FLAG_VCPU_PAUSED
      vcpu_id := req.vcpu_id
      reason := req.reason }
  if req.version ≠ ifaceVersion then []
  else
    (if req.reason = VM_EVENT_REASON_SOFTWARE_BREAKPOINT then
      .injectEvent req.vcpu_id X86_TRAP_INT3 req.sb_type (-1) req.sb_insn_length 0 ::
        (if cbRegistered then [.callback req] else [])
    else []) ++ [.response rsp]

/-- Model of `HVMMonitor::read_events`: drains every pending request
(`while RING_HAS_UNCONSUMED_REQUESTS`, `get_request`) and processes each
in turn.  `reqs` is the list of pending ring requests in consumption
order. -/
def read_events (ifaceVersion : Nat) (cbRegistered : Bool) :
    List vm_event_request → List MonitorAction
  | [] => []
  | req :: rest => handle_request ifaceVersion cbRegistered req ++
      read_events ifaceVersion cbRegistered rest

/-- The responses among the actions of a drain. -/
def responsesOf (acts : List MonitorAction) : List vm_event_response :=
  acts.filterMap fun a => match a with
    | .response r => some r
    | _ => none

/-! ## Synthetic guest-memory fixtures used by concrete witnesses -/

/-- Synthetic 4-level page table with a present, PSE-marked entry at the
penultimate level (a 2 MiB large page at frame base `0x200`). -/
def mem_c4a : Nat → Option Nat := fun a =>
  if a = 0x1000 then some 0x2003 else if a = 0x2000 then some 0x3003
  else if a = 0x3000 then some 0x200083 else none

/-- Synthetic 2-level page table with a present, PSE-marked entry at the
penultimate level (a 4 MiB large page at frame base `0x400`). -/
def mem_c4b : Nat → Option Nat := fun a =>
  if a = 0x1004 then some 0x400083 else none

/-- Synthetic 4-level page table whose leaf entry has the present bit
clear. -/
def mem_c5 : Nat → Option Nat := fun a =>
  if a = 0x1000 then some 0x2003 else if a = 0x2000 then some 0x3003
  else if a = 0x3000 then some 0x4003 else if a = 0x4000 then some 0x5002 else none

/-! # Theorems settling the claims -/

/-- Helper for C5: along the loop of the walk, the result is "not
present" exactly when some fetched entry has its present bit (bit 0)
clear, provided every entry already in the trace accumulator is
present. -/
theorem walkLoop_notPresent_iff (mem : Nat → Option Nat) (pt_levels size vaddr : Nat)
    (fuel : Nat) :
    ∀ (paddr mask pte : Nat) (trace : List Nat),
      (∀ e ∈ trace, e % 2 = 1) →
      ((walkLoop mem pt_levels size vaddr fuel paddr mask pte trace).1 = .notPresent ↔
        ∃ e ∈ (walkLoop mem pt_levels size vaddr fuel paddr mask pte trace).2, e % 2 = 0) := by
  induction fuel with
  | zero =>
    intro paddr mask pte trace hodd
    simp only [walkLoop]
    constructor
    · intro h; simp at h
    · rintro ⟨e, he, hev⟩; have := hodd e he; omega
  | succ n ih =>
    intro paddr mask pte trace hodd
    simp only [walkLoop]
    cases hm : mem ((paddr + ((vaddr &&& mask) >>> (xc_ffs64 mask - 1)) * size) % 2 ^ 64) with
    | none =>
      simp only [hm]
      constructor
      · intro h; simp at h
      · rintro ⟨e, he, hev⟩; have := hodd e he; omega
    | some bytes =>
      simp only [hm]
      by_cases hp : (((pte >>> (8*size)) <<< (8*size)) ||| (bytes % 2^(8*size))) % 2 = 0
      · simp only [if_pos hp]
        constructor
        · intro _
          exact ⟨((pte >>> (8*size)) <<< (8*size)) ||| (bytes % 2^(8*size)), by simp, hp⟩
        · intro _; trivial
      · simp only [if_neg hp]
        by_cases hc : ((n+1) = 2 ∨ ((n+1) = 3 ∧ pt_levels = 4)) ∧
            (((pte >>> (8*size)) <<< (8*size)) ||| (bytes % 2^(8*size))) &&& PTE_PSE ≠ 0
        · simp only [if_pos hc]
          constructor
          · intro h; simp at h
          · rintro ⟨e, he, hev⟩
            rcases List.mem_append.1 he with h1 | h2
            · have := hodd e h1; omega
            · simp at h2; subst h2; exact absurd hev hp
        · simp only [if_neg hc]
          refine ih _ _ _ _ ?_
          intro e he
          rcases List.mem_append.1 he with h1 | h2
          · exact hodd e h1
          · simp at h2; subst h2; omega

/-- Helper for C5: the previous characterisation lifted over the
mask/size setup, starting from an empty trace. -/
theorem walkTables_notPresent_iff (mem : Nat → Option Nat) (pt_levels paddr pte0 vaddr : Nat) :
    ((walkTables mem pt_levels paddr pte0 vaddr).1 = .notPresent ↔
      ∃ e ∈ (walkTables mem pt_levels paddr pte0 vaddr).2, e % 2 = 0) :=
  walkLoop_notPresent_iff _ _ _ _ _ _ _ _ [] (by simp)

/-- Helper for C5: the characterisation lifted to the full
`get_page_table_entry`, covering the paging-disabled early return and
both PV base-address computations. -/
theorem gpte_notPresent_iff (hvm : Bool) (ws cr0 cr3 cr4 efer : Nat)
    (mem : Nat → Option Nat) (pte0 vaddr : Nat) :
    ((get_page_table_entry hvm ws cr0 cr3 cr4 efer mem pte0 vaddr).1 = .notPresent ↔
      ∃ e ∈ (get_page_table_entry hvm ws cr0 cr3 cr4 efer mem pte0 vaddr).2, e % 2 = 0) := by
  cases hvm with
  | true =>
    by_cases h0 : cr0 &&& CR0_PG = 0
    · simp [get_page_table_entry, h0]
    · simp only [get_page_table_entry, if_true, if_neg h0]
      exact walkTables_notPresent_iff _ _ _ _ _
  | false =>
    by_cases hw : ws = 8
    · simp only [get_page_table_entry, Bool.false_eq_true, if_false, if_pos hw]
      exact walkTables_notPresent_iff _ _ _ _ _
    · simp only [get_page_table_entry, Bool.false_eq_true, if_false, if_neg hw]
      exact walkTables_notPresent_iff _ _ _ _ _

/-- C4: during a page-table walk, when the current level permits large
pages (level 2 in every mode, and additionally level 3 in 4-level mode)
and the fetched entry is present with the PSE bit set, the walk stops
early and returns the frame obtained by combining the high bits of the
frame field of the entry with the low offset bits of the virtual
address — the offset mask being all bits of the current index mask below
its lowest set bit (`(mask ^ ~-mask) >> 1`) — shifted right by the page
shift. -/
theorem walk_large_page_short_circuit
    (mem : Nat → Option Nat) (pt_levels size vaddr level paddr mask pte : Nat)
    (trace : List Nat) (bytes pteNew : Nat)
    (hmem : mem ((paddr + ((vaddr &&& mask) >>> (xc_ffs64 mask - 1)) * size) % 2 ^ 64) = some bytes)
    (hpte : pteNew = ((pte >>> (8 * size)) <<< (8 * size)) ||| (bytes % 2 ^ (8 * size)))
    (hpresent : pteNew % 2 = 1)
    (hlevel : level + 1 = 2 ∨ (level + 1 = 3 ∧ pt_levels = 4))
    (hpse : pteNew &&& PTE_PSE ≠ 0) :
    walkLoop mem pt_levels size vaddr (level + 1) paddr mask pte trace =
      (.frame ((((pteNew &&& 0x000ffffffffff000) &&& comp64 (pse_offset_mask mask)) |||
        (vaddr &&& pse_offset_mask mask)) >>> XC_PAGE_SHIFT), trace ++ [pteNew]) := by
  simp only [walkLoop, hmem, ← hpte]
  rw [if_neg (by omega), if_pos ⟨hlevel, hpse⟩]

/-- Witness for C4 at one 4-level case (2 MiB page, hand-computed frame
`0x212` for `vaddr = 0x12345`) and one 2-level case (4 MiB page,
hand-computed frame `0x412` for `vaddr = 0x412345`), both as full walks
and as instances of the short-circuit theorem. -/
theorem walk_large_page_short_circuit_witness :
    get_page_table_entry true 8 CR0_PG 0x1000 0 EFER_LMA mem_c4a 0 0x12345 =
      (.frame 0x212, [0x2003, 0x3003, 0x200083])
    ∧ walkLoop mem_c4a 4 8 0x12345 2 0x3000 0x3fe00000 0x3003 [0x2003, 0x3003] =
      (.frame 0x212, [0x2003, 0x3003, 0x200083])
    ∧ get_page_table_entry true 8 CR0_PG 0x1000 0 0 mem_c4b 0 0x412345 =
      (.frame 0x412, [0x400083])
    ∧ walkLoop mem_c4b 2 4 0x412345 2 0x1000 0xffc00000 0 [] =
      (.frame 0x412, [0x400083]) := by
  refine ⟨by decide, ?_, by decide, ?_⟩
  · exact (walk_large_page_short_circuit mem_c4a 4 8 0x12345 1 0x3000 0x3fe00000 0x3003
      [0x2003, 0x3003] 0x200083 0x200083 (by decide) (by decide) (by decide)
      (Or.inl rfl) (by decide)).trans (by decide)
  · exact (walk_large_page_short_circuit mem_c4b 2 4 0x412345 1 0x1000 0xffc00000 0 []
      0x400083 0x400083 (by decide) (by decide) (by decide)
      (Or.inl rfl) (by decide)).trans (by decide)

/-- C5: the page-table walk returns "not present" if and only if some
fetched entry has its present bit (bit 0) clear; a failed read of an
intermediate table page is the distinct hard failure
`translationFault`; and when the loop over all levels completes without
early return, the final fetched entry value is returned as the resolved
frame. -/
theorem walk_not_present_fault_and_completion (hvm : Bool)
    (word_size cr0 cr3 cr4 msr_efer : Nat)
    (mem : Nat → Option Nat) (pte0 vaddr : Nat) :
    ((get_page_table_entry hvm word_size cr0 cr3 cr4 msr_efer mem pte0 vaddr).1 = .notPresent ↔
      ∃ e ∈ (get_page_table_entry hvm word_size cr0 cr3 cr4 msr_efer mem pte0 vaddr).2, e % 2 = 0)
    ∧ (∀ pt_levels size va level paddr mask pte trace,
        mem ((paddr + ((va &&& mask) >>> (xc_ffs64 mask - 1)) * size) % 2 ^ 64) = none →
        walkLoop mem pt_levels size va (level + 1) paddr mask pte trace =
          (.translationFault, trace) ∧
        WalkResult.translationFault ≠ WalkResult.notPresent)
    ∧ (∀ pt_levels size va paddr mask pte trace,
        walkLoop mem pt_levels size va 0 paddr mask pte trace = (.frame pte, trace)) := by
  refine ⟨gpte_notPresent_iff hvm word_size cr0 cr3 cr4 msr_efer mem pte0 vaddr, ?_, ?_⟩
  · intro pt_levels size va level paddr mask pte trace hnone
    exact ⟨by simp only [walkLoop, hnone], by decide⟩
  · intro pt_levels size va paddr mask pte trace
    simp only [walkLoop]

/-- Witness for C5: on a concrete 4-level table whose leaf entry has the
present bit clear the iff holds; a read fault at a concrete step yields
`translationFault`; an exhausted loop returns the final entry value. -/
theorem walk_not_present_fault_and_completion_witness :
    ((get_page_table_entry true 8 CR0_PG 0x1000 0 EFER_LMA mem_c5 0 0).1 = .notPresent ↔
      ∃ e ∈ (get_page_table_entry true 8 CR0_PG 0x1000 0 EFER_LMA mem_c5 0 0).2, e % 2 = 0)
    ∧ walkLoop mem_c5 4 8 0 1 0x5000 0x1ff000 0x5002 [] = (.translationFault, [])
    ∧ walkLoop mem_c5 4 8 0 0 0x5000 0x1ff000 0x5003 [0x2003] = (.frame 0x5003, [0x2003]) :=
  ⟨(walk_not_present_fault_and_completion true 8 CR0_PG 0x1000 0 EFER_LMA mem_c5 0 0).1,
    ((walk_not_present_fault_and_completion true 8 CR0_PG 0x1000 0 EFER_LMA mem_c5 0 0).2.1
      4 8 0 0 0x5000 0x1ff000 0x5002 [] (by decide)).1,
    (walk_not_present_fault_and_completion true 8 CR0_PG 0x1000 0 EFER_LMA mem_c5 0 0).2.2
      4 8 0 0x5000 0x1ff000 0x5003 [0x2003]⟩

/-- C6 counterexample: the claim quantifies over every domain, but the
`CR0.PG` shortcut exists only on the HVM branch of the source.  For a
paravirtualized (non-HVM) domain with `cr0 = 0` (so CR0.PG clear) the
translation still walks: it consults guest memory (nonempty fetch
trace) and returns "not present" here instead of
`frame (vaddr >> PAGE_SHIFT)`. -/
theorem pv_paging_disabled_still_walks :
    (0 : Nat) &&& CR0_PG = 0 ∧
    get_page_table_entry false 8 0 0 0 0 (fun _ => some 0) 0 0 = (.notPresent, [0]) ∧
    get_page_table_entry false 8 0 0 0 0 (fun _ => some 0) 0 0 ≠
      (.frame ((0 : Nat) >>> XC_PAGE_SHIFT), []) := by decide

/-- C6 as amended: for every hardware-virtualized (HVM) domain and every
virtual address, if guest paging is disabled (CR0.PG clear) the
translation returns `vaddr >> PAGE_SHIFT` directly, performing no
page-table walk and no guest-memory mapping (empty fetch trace,
arbitrary memory). -/
theorem hvm_paging_disabled_shortcut (word_size cr0 cr3 cr4 msr_efer : Nat)
    (mem : Nat → Option Nat) (pte0 vaddr : Nat) (h : cr0 &&& CR0_PG = 0) :
    get_page_table_entry true word_size cr0 cr3 cr4 msr_efer mem pte0 vaddr =
      (.frame (vaddr >>> XC_PAGE_SHIFT), []) := by
  simp [get_page_table_entry, h]

/-- Witness for the amended C6 at a concrete HVM input with CR0.PG
clear. -/
theorem hvm_paging_disabled_shortcut_witness :
    (0xabc : Nat) &&& CR0_PG = 0 ∧
    get_page_table_entry true 8 0xabc 0x1000 0 0 (fun _ => some 0) 0 0x5000 =
      (.frame 5, []) :=
  ⟨by decide,
    (hvm_paging_disabled_shortcut 8 0xabc 0x1000 0 0 (fun _ => some 0) 0 0x5000
      (by decide)).trans (by decide)⟩

/-- C2: for a vCPU index within range, a pause call issues the delegated
hypercall exactly when the tracked bit is clear (and an unpause exactly
when it is set); a second consecutive pause is a verified no-op (no
state change and no call), so two consecutive pause calls issue at most
one underlying hypervisor pause hypercall. -/
theorem pause_unpause_vcpu_idempotent (chanOk : Nat → Nat → Bool) (v : Nat) (st : List Bool)
    (h : v < st.length) :
    ((pause_vcpu chanOk v st).callsOf ≠ [] ↔ st[v]? = some false)
    ∧ ((unpause_vcpu chanOk v st).callsOf ≠ [] ↔ st[v]? = some true)
    ∧ pause_vcpu chanOk v ((pause_vcpu chanOk v st).stateOf) =
        .ok ((pause_vcpu chanOk v st).stateOf) []
    ∧ ((pause_vcpu chanOk v st).callsOf ++
        (pause_vcpu chanOk v ((pause_vcpu chanOk v st).stateOf)).callsOf).length ≤ 1 := by
  have hget : st[v]? = some st[v] := List.getElem?_eq_getElem h
  have hset : (st.set v true)[v]? = some true := List.getElem?_set_eq_of_lt true h
  simp only [pause_vcpu, unpause_vcpu, pause_unpause_vcpu,
    XEN_DOMCTL_gdbsx_pausevcpu, XEN_DOMCTL_gdbsx_unpausevcpu] at hset ⊢
  cases hb : st[v] with
  | true =>
    rw [hb] at hget
    refine ⟨?_, ?_, ?_, ?_⟩
    · simp [hget, PUOutcome.callsOf]
    · cases hc : chanOk 1002 v <;> simp [hget, hc, PUOutcome.callsOf]
    · simp [hget, PUOutcome.stateOf]
    · simp [hget, PUOutcome.stateOf, PUOutcome.callsOf]
  | false =>
    rw [hb] at hget
    cases hc : chanOk 1001 v with
    | true =>
      refine ⟨?_, ?_, ?_, ?_⟩
      · simp [hget, hc, PUOutcome.callsOf]
      · cases hc2 : chanOk 1002 v <;> simp [hget, hc2, PUOutcome.callsOf]
      · simp [hget, hc, PUOutcome.stateOf, hset]
      · simp [hget, hc, PUOutcome.stateOf, PUOutcome.callsOf, hset]
    | false =>
      refine ⟨?_, ?_, ?_, ?_⟩
      · simp [hget, hc, PUOutcome.callsOf]
      · cases hc2 : chanOk 1002 v <;> simp [hget, hc2, PUOutcome.callsOf]
      · simp [hget, hc, PUOutcome.stateOf, hset]
      · simp [hget, hc, PUOutcome.stateOf, PUOutcome.callsOf, hset]

/-- Witness for C2 on a two-vCPU tracker with vCPU 0 running. -/
theorem pause_unpause_vcpu_idempotent_witness :
    (0 : Nat) < ([false, true] : List Bool).length ∧
    ((pause_vcpu (fun _ _ => true) 0 [false, true]).callsOf ≠ [] ↔
      ([false, true] : List Bool)[0]? = some false) ∧
    pause_vcpu (fun _ _ => true) 0 ((pause_vcpu (fun _ _ => true) 0 [false, true]).stateOf) =
      .ok ((pause_vcpu (fun _ _ => true) 0 [false, true]).stateOf) [] :=
  ⟨by decide, (pause_unpause_vcpu_idempotent (fun _ _ => true) 0 [false, true] (by decide)).1,
    (pause_unpause_vcpu_idempotent (fun _ _ => true) 0 [false, true] (by decide)).2.2.1⟩

/-- C9: in the single-vCPU pause/unpause operation, the tracked bit is
flipped before the delegated hypercall is issued, so when the hypercall
fails (throws) the tracker still records the new state — no rollback —
and a subsequent identical request (pause after a failed pause, unpause
after a failed unpause) is absorbed as a no-op even though the
hypervisor never performed the transition.  Both directions: pausing a
running vCPU with a failing pause hypercall, and unpausing a paused
vCPU with a failing unpause hypercall. -/
theorem pause_state_committed_before_hypercall (chanOk : Nat → Nat → Bool) (v : Nat)
    (st : List Bool) :
    (st[v]? = some false → chanOk XEN_DOMCTL_gdbsx_pausevcpu v = false →
      pause_vcpu chanOk v st =
        .hypercallFailed (st.set v true) [(XEN_DOMCTL_gdbsx_pausevcpu, v)]
      ∧ (st.set v true)[v]? = some true
      ∧ pause_vcpu chanOk v (st.set v true) = .ok (st.set v true) [])
    ∧ (st[v]? = some true → chanOk XEN_DOMCTL_gdbsx_unpausevcpu v = false →
      unpause_vcpu chanOk v st =
        .hypercallFailed (st.set v false) [(XEN_DOMCTL_gdbsx_unpausevcpu, v)]
      ∧ (st.set v false)[v]? = some false
      ∧ unpause_vcpu chanOk v (st.set v false) = .ok (st.set v false) []) := by
  constructor
  · intro hbit hfail
    have hlen : v < st.length := by
      by_contra hge
      rw [List.getElem?_eq_none (by omega)] at hbit
      cases hbit
    have hset : (st.set v true)[v]? = some true := List.getElem?_set_eq_of_lt true hlen
    exact ⟨by simp [pause_vcpu, pause_unpause_vcpu, hbit, hfail],
      hset, by simp [pause_vcpu, pause_unpause_vcpu, hset]⟩
  · intro hbit hfail
    have hlen : v < st.length := by
      by_contra hge
      rw [List.getElem?_eq_none (by omega)] at hbit
      cases hbit
    have hset : (st.set v false)[v]? = some false := List.getElem?_set_eq_of_lt false hlen
    have hf2 : chanOk 1002 v = false := hfail
    refine ⟨?_, hset, ?_⟩
    · simp [unpause_vcpu, pause_unpause_vcpu, XEN_DOMCTL_gdbsx_pausevcpu,
        XEN_DOMCTL_gdbsx_unpausevcpu, hbit, hf2]
    · simp [unpause_vcpu, pause_unpause_vcpu, XEN_DOMCTL_gdbsx_pausevcpu,
        XEN_DOMCTL_gdbsx_unpausevcpu, hset]

/-- Witness for C9 on a one-vCPU tracker with a failing control
channel, in both directions: a failed pause commits `[true]` and the
next pause is a no-op; a failed unpause commits `[false]` and the next
unpause is a no-op. -/
theorem pause_state_committed_before_hypercall_witness :
    ([false] : List Bool)[0]? = some false ∧
    pause_vcpu (fun _ _ => false) 0 [false] =
      .hypercallFailed [true] [(XEN_DOMCTL_gdbsx_pausevcpu, 0)] ∧
    pause_vcpu (fun _ _ => false) 0 [true] = .ok [true] [] ∧
    ([true] : List Bool)[0]? = some true ∧
    unpause_vcpu (fun _ _ => false) 0 [true] =
      .hypercallFailed [false] [(XEN_DOMCTL_gdbsx_unpausevcpu, 0)] ∧
    unpause_vcpu (fun _ _ => false) 0 [false] = .ok [false] [] :=
  ⟨by decide,
    ((pause_state_committed_before_hypercall (fun _ _ => false) 0 [false]).1
      (by decide) (by decide)).1,
    ((pause_state_committed_before_hypercall (fun _ _ => false) 0 [false]).1
      (by decide) (by decide)).2.2,
    by decide,
    ((pause_state_committed_before_hypercall (fun _ _ => false) 0 [true]).2
      (by decide) (by decide)).1,
    ((pause_state_committed_before_hypercall (fun _ _ => false) 0 [true]).2
      (by decide) (by decide)).2.2⟩

/-- C3: contrary to the claim, `Domain::pause_unpause_vcpu` performs no
range check.  On a domain with `max_vcpu_id = 0` (tracker `[false]`),
pausing or unpausing vCPU 1 indexes `_vcpu_pause_state` out of bounds
(undefined behaviour) instead of failing with an `InvalidVCPU`
condition. -/
theorem pause_vcpu_out_of_range_oob :
    pause_vcpu (fun _ _ => true) 1 [false] = .oobAccess ∧
    unpause_vcpu (fun _ _ => true) 1 [false] = .oobAccess := by decide

/-- C1: contrary to the claim, a request whose `version` differs from the
supported interface version is consumed and then `continue`d past
`put_response`: the drain performs no trap injection and no callback,
but also submits no response at all (here: supported version 6, request
version 5). -/
theorem version_mismatch_request_gets_no_response :
    read_events 6 true
      [{ version := 5, flags := 1, vcpu_id := 3,
         reason := VM_EVENT_REASON_SOFTWARE_BREAKPOINT, sb_type := 0, sb_insn_length := 1 }] = []
    ∧ responsesOf (read_events 6 true
      [{ version := 5, flags := 1, vcpu_id := 3,
         reason := VM_EVENT_REASON_SOFTWARE_BREAKPOINT, sb_type := 0, sb_insn_length := 1 }]) = []
    ∧ (5 : Nat) ≠ 6 := by decide

/-- C7: a request with matching version and reason
`SOFTWARE_BREAKPOINT` yields, in order: an `inject_event` call into the
vcpu of the request with vector `INT3` and the reported instruction
length, the registered callback invoked with the identical raw request
(when one is registered), and then the response for that request. -/
theorem software_breakpoint_dispatch (ifaceVersion : Nat) (cbRegistered : Bool)
    (req : vm_event_request)
    (hv : req.version = ifaceVersion)
    (hr : req.reason = VM_EVENT_REASON_SOFTWARE_BREAKPOINT) :
    handle_request ifaceVersion cbRegistered req =
      .injectEvent req.vcpu_id X86_TRAP_INT3 req.sb_type (-1) req.sb_insn_length 0 ::
        ((if cbRegistered then [.callback req] else []) ++
          [.response { version := ifaceVersion,
                       flags := req.flags &&& VM_EVENT_FLAG_VCPU_PAUSED,
                       vcpu_id := req.vcpu_id,
                       reason := req.reason }]) := by
  simp [handle_request, hv, hr]

/-- Witness for C7 at the spec scenario: `vcpu_id = 1`,
`reason = SOFTWARE_BREAKPOINT`, `instruction_length = 1` gives a trap
injection with vector INT3 and length 1, a callback with the identical
request, then the response. -/
theorem software_breakpoint_dispatch_witness :
    handle_request 6 true
      { version := 6, flags := 1, vcpu_id := 1,
        reason := VM_EVENT_REASON_SOFTWARE_BREAKPOINT, sb_type := 0, sb_insn_length := 1 } =
      [.injectEvent 1 X86_TRAP_INT3 0 (-1) 1 0,
       .callback
         { version := 6, flags := 1, vcpu_id := 1,
           reason := VM_EVENT_REASON_SOFTWARE_BREAKPOINT, sb_type := 0, sb_insn_length := 1 },
       .response
         { version := 6, flags := 1, vcpu_id := 1,
           reason := VM_EVENT_REASON_SOFTWARE_BREAKPOINT }] :=
  (software_breakpoint_dispatch 6 true _ rfl rfl).trans (by decide)

/-- C8: the conversion used by `set_cpu_context` is a read-modify-write
against the previously read raw context: it overwrites exactly the
modelled registers (general-purpose registers, rip, rflags, the five
written segment bases, cr3) with the values from the canonical context,
and leaves every other field of the raw record unchanged. -/
theorem convert_regs_to_hvm_read_modify_write (regs : RegistersX86_64) (hvm : hvm_hw_cpu) :
    ((convert_regs_to_hvm regs hvm).rax = regs.rax ∧
     (convert_regs_to_hvm regs hvm).rbx = regs.rbx ∧
     (convert_regs_to_hvm regs hvm).rcx = regs.rcx ∧
     (convert_regs_to_hvm regs hvm).rdx = regs.rdx ∧
     (convert_regs_to_hvm regs hvm).rsp = regs.rsp ∧
     (convert_regs_to_hvm regs hvm).rbp = regs.rbp ∧
     (convert_regs_to_hvm regs hvm).rsi = regs.rsi ∧
     (convert_regs_to_hvm regs hvm).rdi = regs.rdi ∧
     (convert_regs_to_hvm regs hvm).r8 = regs.r8 ∧
     (convert_regs_to_hvm regs hvm).r9 = regs.r9 ∧
     (convert_regs_to_hvm regs hvm).r10 = regs.r10 ∧
     (convert_regs_to_hvm regs hvm).r11 = regs.r11 ∧
     (convert_regs_to_hvm regs hvm).r12 = regs.r12 ∧
     (convert_regs_to_hvm regs hvm).r13 = regs.r13 ∧
     (convert_regs_to_hvm regs hvm).r14 = regs.r14 ∧
     (convert_regs_to_hvm regs hvm).r15 = regs.r15 ∧
     (convert_regs_to_hvm regs hvm).rip = regs.rip ∧
     (convert_regs_to_hvm regs hvm).rflags = regs.rflags ∧
     (convert_regs_to_hvm regs hvm).fs_base = regs.fs ∧
     (convert_regs_to_hvm regs hvm).gs_base = regs.gs ∧
     (convert_regs_to_hvm regs hvm).cs_base = regs.cs ∧
     (convert_regs_to_hvm regs hvm).ds_base = regs.ds ∧
     (convert_regs_to_hvm regs hvm).ss_base = regs.ss ∧
     (convert_regs_to_hvm regs hvm).cr3 = regs.cr3) ∧
    ((convert_regs_to_hvm regs hvm).cr0 = hvm.cr0 ∧
     (convert_regs_to_hvm regs hvm).cr2 = hvm.cr2 ∧
     (convert_regs_to_hvm regs hvm).cr4 = hvm.cr4 ∧
     (convert_regs_to_hvm regs hvm).dr0 = hvm.dr0 ∧
     (convert_regs_to_hvm regs hvm).dr1 = hvm.dr1 ∧
     (convert_regs_to_hvm regs hvm).dr2 = hvm.dr2 ∧
     (convert_regs_to_hvm regs hvm).dr3 = hvm.dr3 ∧
     (convert_regs_to_hvm regs hvm).dr6 = hvm.dr6 ∧
     (convert_regs_to_hvm regs hvm).dr7 = hvm.dr7 ∧
     (convert_regs_to_hvm regs hvm).cs_sel = hvm.cs_sel ∧
     (convert_regs_to_hvm regs hvm).ds_sel = hvm.ds_sel ∧
     (convert_regs_to_hvm regs hvm).es_sel = hvm.es_sel ∧
     (convert_regs_to_hvm regs hvm).fs_sel = hvm.fs_sel ∧
     (convert_regs_to_hvm regs hvm).gs_sel = hvm.gs_sel ∧
     (convert_regs_to_hvm regs hvm).ss_sel = hvm.ss_sel ∧
     (convert_regs_to_hvm regs hvm).tr_sel = hvm.tr_sel ∧
     (convert_regs_to_hvm regs hvm).ldtr_sel = hvm.ldtr_sel ∧
     (convert_regs_to_hvm regs hvm).cs_limit = hvm.cs_limit ∧
     (convert_regs_to_hvm regs hvm).ds_limit = hvm.ds_limit ∧
     (convert_regs_to_hvm regs hvm).es_limit = hvm.es_limit ∧
     (convert_regs_to_hvm regs hvm).fs_limit = hvm.fs_limit ∧
     (convert_regs_to_hvm regs hvm).gs_limit = hvm.gs_limit ∧
     (convert_regs_to_hvm regs hvm).ss_limit = hvm.ss_limit ∧
     (convert_regs_to_hvm regs hvm).tr_limit = hvm.tr_limit ∧
     (convert_regs_to_hvm regs hvm).ldtr_limit = hvm.ldtr_limit ∧
     (convert_regs_to_hvm regs hvm).idtr_limit = hvm.idtr_limit ∧
     (convert_regs_to_hvm regs hvm).gdtr_limit = hvm.gdtr_limit ∧
     (convert_regs_to_hvm regs hvm).es_base = hvm.es_base ∧
     (convert_regs_to_hvm regs hvm).tr_base = hvm.tr_base ∧
     (convert_regs_to_hvm regs hvm).ldtr_base = hvm.ldtr_base ∧
     (convert_regs_to_hvm regs hvm).idtr_base = hvm.idtr_base ∧
     (convert_regs_to_hvm regs hvm).gdtr_base = hvm.gdtr_base ∧
     (convert_regs_to_hvm regs hvm).cs_arbytes = hvm.cs_arbytes ∧
     (convert_regs_to_hvm regs hvm).ds_arbytes = hvm.ds_arbytes ∧
     (convert_regs_to_hvm regs hvm).es_arbytes = hvm.es_arbytes ∧
     (convert_regs_to_hvm regs hvm).fs_arbytes = hvm.fs_arbytes ∧
     (convert_regs_to_hvm regs hvm).gs_arbytes = hvm.gs_arbytes ∧
     (convert_regs_to_hvm regs hvm).ss_arbytes = hvm.ss_arbytes ∧
     (convert_regs_to_hvm regs hvm).tr_arbytes = hvm.tr_arbytes ∧
     (convert_regs_to_hvm regs hvm).ldtr_arbytes = hvm.ldtr_arbytes ∧
     (convert_regs_to_hvm regs hvm).sysenter_cs = hvm.sysenter_cs ∧
     (convert_regs_to_hvm regs hvm).sysenter_esp = hvm.sysenter_esp ∧
     (convert_regs_to_hvm regs hvm).sysenter_eip = hvm.sysenter_eip ∧
     (convert_regs_to_hvm regs hvm).shadow_gs = hvm.shadow_gs ∧
     (convert_regs_to_hvm regs hvm).msr_flags = hvm.msr_flags ∧
     (convert_regs_to_hvm regs hvm).msr_lstar = hvm.msr_lstar ∧
     (convert_regs_to_hvm regs hvm).msr_star = hvm.msr_star ∧
     (convert_regs_to_hvm regs hvm).msr_cstar = hvm.msr_cstar ∧
     (convert_regs_to_hvm regs hvm).msr_syscall_mask = hvm.msr_syscall_mask ∧
     (convert_regs_to_hvm regs hvm).msr_efer = hvm.msr_efer ∧
     (convert_regs_to_hvm regs hvm).msr_tsc_aux = hvm.msr_tsc_aux ∧
     (convert_regs_to_hvm regs hvm).tsc = hvm.tsc ∧
     (convert_regs_to_hvm regs hvm).pending_event = hvm.pending_event ∧
     (convert_regs_to_hvm regs hvm).error_code = hvm.error_code) := by
  simp [convert_regs_to_hvm]

/-- C10: `get_cpu_context` always returns the 64-bit variant of the
register-context tagged union, regardless of guest word size; and
`set_cpu_context` applied to the 32-bit variant fails with the
`std::get` variant-access error before any control-channel interaction
takes place (empty interaction list). -/
theorem register_context_always_64bit :
    (∀ (rawCtx : Nat → hvm_hw_cpu) (vcpu_id : Nat),
      get_cpu_context rawCtx vcpu_id = Sum.inr (convert_regs_from_hvm (rawCtx vcpu_id)))
    ∧ (∀ (rawCtx : Nat → hvm_hw_cpu) (r32 : RegistersX86_32) (vcpu_id : Nat),
      set_cpu_context rawCtx (Sum.inl r32) vcpu_id = (.badVariantAccess, [])) :=
  ⟨fun _ _ => rfl, fun _ _ _ => rfl⟩

end XdXen
